import Mathlib

/-!
Verification of the action-registration and dispatch contract of the
Browser-useMistralXdolphin repository.

The repository's visible code is `examples/who_starred_my_repo.py` and
`tests/test_self_registered_actions.py`.  The test file registers custom
actions on a `Controller` (from `browser_use.controller.service`, a module of
this repository whose implementation is not in the provided sources) and the
example script drives a browser agent inside a try/except/finally block.

This file shallowly embeds:
  * the action descriptors registered by the test fixture and by
    `test_mixed_arguments_actions` (names, parameter lists, optional
    `param_model` schemas), translated from the `@controller.action`
    registrations in `tests/test_self_registered_actions.py`;
  * the handler bodies (`add_numbers`, `concatenate_strings`,
    `process_simple_model`, `process_nested_model`, `calculate_area`, ...),
    translated line by line from the same test file;
  * the dispatch/validation machinery of the Controller, modelled from the
    spec because `browser_use/controller/service.py` is not among the
    provided sources;
  * IEEE-754 binary64 arithmetic and Python float `repr` (shortest
    round-tripping decimal), needed for the `calculate_area` result string;
  * the control flow of `main` in `examples/who_starred_my_repo.py` as an
    event trace parametrised by which statement (if any) raises.
-/

namespace BrowserUseSpec

/-! ## Action descriptors (registration-time data)

Translated from the `@controller.action(...)` registrations in
`tests/test_self_registered_actions.py`. -/

/-- Parameter type tags occurring in the registered handlers' signatures:
the scalar annotations `str`, `int`, `float` and the three pydantic models
`SimpleModel`, `Address`, `NestedModel` defined in the test file. -/
inductive ParamTy where
  | str : ParamTy
  | int : ParamTy
  | float : ParamTy
  | simpleModel : ParamTy
  | address : ParamTy
  | nestedModel : ParamTy
deriving DecidableEq, Repr

/-- Whether a parameter type tag is a structured (pydantic-model) type. -/
def isModelTy : ParamTy → Bool
  | ParamTy.simpleModel => true
  | ParamTy.address => true
  | ParamTy.nestedModel => true
  | _ => false

/-- One registered action: its registry key (the Python function name), the
description string passed to `@controller.action`, the optional
`param_model=` schema, and the handler's declared parameter list. -/
structure ActionDescriptor where
  name : String
  description : String
  paramModel : Option ParamTy
  params : List (String × ParamTy)
deriving DecidableEq, Repr

/-- Descriptor of `print_message(message: str)`, registered with
`@controller.action('Print a message')`. -/
def printMessageDesc : ActionDescriptor :=
  ⟨"print_message", "Print a message", none, [("message", ParamTy.str)]⟩

/-- Descriptor of `add_numbers(a: int, b: int)`, registered with
`@controller.action('Add two numbers')`. -/
def addNumbersDesc : ActionDescriptor :=
  ⟨"add_numbers", "Add two numbers", none,
    [("a", ParamTy.int), ("b", ParamTy.int)]⟩

/-- Descriptor of `concatenate_strings(str1: str, str2: str)`, registered
with `@controller.action('Concatenate strings')`. -/
def concatenateStringsDesc : ActionDescriptor :=
  ⟨"concatenate_strings", "Concatenate strings", none,
    [("str1", ParamTy.str), ("str2", ParamTy.str)]⟩

/-- Descriptor of `process_simple_model(model: SimpleModel)`, registered with
`@controller.action('Process simple model', param_model=SimpleModel)`. -/
def processSimpleModelDesc : ActionDescriptor :=
  ⟨"process_simple_model", "Process simple model", some ParamTy.simpleModel,
    [("model", ParamTy.simpleModel)]⟩

/-- Descriptor of `process_nested_model(model: NestedModel)`, registered with
`@controller.action('Process nested model', param_model=NestedModel)`. -/
def processNestedModelDesc : ActionDescriptor :=
  ⟨"process_nested_model", "Process nested model", some ParamTy.nestedModel,
    [("model", ParamTy.nestedModel)]⟩

/-- Descriptor of `process_multiple_models(model1: SimpleModel, model2:
Address)`, registered with `@controller.action('Process multiple models')` —
note: no `param_model=` is passed, yet both parameters are pydantic models. -/
def processMultipleModelsDesc : ActionDescriptor :=
  ⟨"process_multiple_models", "Process multiple models", none,
    [("model1", ParamTy.simpleModel), ("model2", ParamTy.address)]⟩

/-- Descriptor of the async `calculate_area(length: float, width: float)`,
registered with `@controller.action('Calculate the area of a rectangle')`
inside `test_mixed_arguments_actions` (not in the fixture). -/
def calculateAreaDesc : ActionDescriptor :=
  ⟨"calculate_area", "Calculate the area of a rectangle", none,
    [("length", ParamTy.float), ("width", ParamTy.float)]⟩

/-- The registry contents established by the `controller` fixture, in
registration order. -/
def setupRegistry : List ActionDescriptor :=
  [printMessageDesc, addNumbersDesc, concatenateStringsDesc,
   processSimpleModelDesc, processNestedModelDesc, processMultipleModelsDesc]

/-- The predicate asserted by the spec's descriptor invariant: a descriptor
with a `param_model` schema has exactly one parameter, of that schema type;
a descriptor without one has no structured-model parameter at all. -/
def schemaParamInvariant (a : ActionDescriptor) : Bool :=
  match a.paramModel with
  | some s =>
      match a.params with
      | [(_, t)] => t == s
      | _ => false
  | none => a.params.all (fun p => !(isModelTy p.2))

/-- The descriptor invariant as it actually holds of the source: a schema
carries exactly one parameter named `model` of the schema type, and every
schema-less action has only scalar parameters except
`process_multiple_models`, whose two parameters are pydantic models. -/
def schemaParamInvariantAmended (a : ActionDescriptor) : Bool :=
  match a.paramModel with
  | some s => a.params == [("model", s)]
  | none =>
      (a.name == "process_multiple_models") ||
        a.params.all (fun p => !(isModelTy p.2))

/-! ## Registration timeline

`test_mixed_arguments_actions` registers `calculate_area` on the already
set-up controller before running the agent that dispatches it. -/

/-- When a registration happens: during the `controller` fixture (setup) or
inside a test body, after setup completed. -/
inductive Phase where
  | setup : Phase
  | test : Phase
deriving DecidableEq, Repr

/-- One registration event: the action name and the phase it occurs in. -/
structure RegEvent where
  name : String
  phase : Phase
deriving DecidableEq, Repr

/-- All registration events visible in `tests/test_self_registered_actions.py`:
six actions registered by the fixture, plus `calculate_area` registered inside
`test_mixed_arguments_actions`. -/
def registrationEvents : List RegEvent :=
  [⟨"print_message", Phase.setup⟩, ⟨"add_numbers", Phase.setup⟩,
   ⟨"concatenate_strings", Phase.setup⟩, ⟨"process_simple_model", Phase.setup⟩,
   ⟨"process_nested_model", Phase.setup⟩,
   ⟨"process_multiple_models", Phase.setup⟩,
   ⟨"calculate_area", Phase.test⟩]

/-- Controller-level events of one test run: registering an action or
dispatching one by name. -/
inductive CtrlEv where
  | reg : String → CtrlEv
  | dispatch : String → CtrlEv
deriving DecidableEq, Repr

/-- Event timeline of `test_mixed_arguments_actions`: the fixture's six
registrations, the in-test registration of `calculate_area`, then the agent
run dispatching `calculate_area`. -/
def mixedTestTimeline : List CtrlEv :=
  [CtrlEv.reg "print_message", CtrlEv.reg "add_numbers",
   CtrlEv.reg "concatenate_strings", CtrlEv.reg "process_simple_model",
   CtrlEv.reg "process_nested_model", CtrlEv.reg "process_multiple_models",
   CtrlEv.reg "calculate_area", CtrlEv.dispatch "calculate_area"]

/-- Every dispatch in a timeline is preceded by a registration of the same
action name. -/
def regBeforeDispatch (tl : List CtrlEv) : Bool :=
  tl.enum.all fun p =>
    match p.2 with
    | CtrlEv.dispatch n => (tl.take p.1).any (fun e => e == CtrlEv.reg n)
    | CtrlEv.reg _ => true

/-! ## Python floats

`calculate_area` multiplies two Python floats and interpolates the product
into an f-string.  Python floats are IEEE-754 binary64 values and `str` of a
float is the shortest correctly-rounded decimal that parses back to the same
value.  We embed binary64 values as exact rational numbers, represented as
unnormalised integer fractions so that every operation kernel-reduces. -/

/-- An unnormalised fraction `num / den` with `den > 0` at every use site.
Used instead of `ℚ` so that equality and rounding compute without `Nat.gcd`
normalisation. -/
structure Frac where
  num : Int
  den : Int
deriving DecidableEq, Repr

/-- Product of two fractions (no normalisation). -/
def Frac.mul (a b : Frac) : Frac :=
  ⟨a.num * b.num, a.den * b.den⟩

/-- Difference of two fractions (no normalisation). -/
def Frac.sub (a b : Frac) : Frac :=
  ⟨a.num * b.den - b.num * a.den, a.den * b.den⟩

/-- Strict comparison by cross-multiplication (valid for positive
denominators). -/
def Frac.ltb (a b : Frac) : Bool :=
  a.num * b.den < b.num * a.den

/-- Equality of the represented rationals by cross-multiplication (valid
for positive denominators). -/
def Frac.eqb (a b : Frac) : Bool :=
  a.num * b.den == b.num * a.den

/-- Floor of the represented rational (floor division; valid for positive
denominators). -/
def Frac.floor (q : Frac) : Int :=
  q.num.fdiv q.den

/-- Round-to-nearest with ties to even, the IEEE-754 default rounding of a
real to an integer. -/
def roundHE (q : Frac) : Int :=
  let n := q.floor
  let f := q.sub ⟨n, 1⟩
  if f.ltb ⟨1, 2⟩ then n
  else if Frac.ltb ⟨1, 2⟩ f then n + 1
  else if n % 2 = 0 then n else n + 1

/-- Fuelled base-2 logarithm: largest `e` with `2 ^ e ≤ n`, for `n ≥ 1`. -/
def natLog2F : Nat → Nat → Nat
  | 0, _ => 0
  | fuel + 1, n => if n < 2 then 0 else natLog2F fuel (n / 2) + 1

/-- Binade exponent of a fraction `q ≥ 1`: the `e` with `2 ^ e ≤ q <
2 ^ (e + 1)` (binary64 exponents up to 64 suffice for every value in the
examples). -/
def fpExp (q : Frac) : Nat :=
  natLog2F 64 q.floor.toNat

/-- Rounds a positive real `q ≥ 1` to the nearest binary64 value (53-bit
significand, round-to-nearest ties-to-even): the nearest multiple of
`2 ^ (fpExp q - 52)`. -/
def fpRound (q : Frac) : Frac :=
  let e := fpExp q
  ⟨roundHE ⟨q.num * 2 ^ 52, q.den * 2 ^ e⟩ * 2 ^ e, 2 ^ 52⟩

/-- The binary64 value denoted by a decimal literal (for literals ≥ 1). -/
def fpOfDec (q : Frac) : Frac :=
  fpRound q

/-- Binary64 multiplication: the exact rational product, rounded back to
binary64. -/
def fpMul (a b : Frac) : Frac :=
  fpRound (a.mul b)

/-- Fuelled base-10 logarithm: largest `e` with `10 ^ e ≤ n`, for `n ≥ 1`. -/
def natLog10F : Nat → Nat → Nat
  | 0, _ => 0
  | fuel + 1, n => if n < 10 then 0 else natLog10F fuel (n / 10) + 1

/-- Decimal exponent of a fraction `q ≥ 1`: the `e` with `10 ^ e ≤ q <
10 ^ (e + 1)`. -/
def decExp (q : Frac) : Nat :=
  natLog10F 32 q.floor.toNat

/-- The integer mantissa of `x` correctly rounded to `d` significant decimal
digits (`x ≥ 1`, `d ≥ 1`). -/
def decMantissa (x : Frac) (d : Nat) : Int :=
  let e := decExp x
  if d ≤ e + 1 then roundHE ⟨x.num, x.den * 10 ^ (e + 1 - d)⟩
  else roundHE ⟨x.num * 10 ^ (d - 1 - e), x.den⟩

/-- The rational value of `x` correctly rounded to `d` significant decimal
digits. -/
def decRoundVal (x : Frac) (d : Nat) : Frac :=
  let e := decExp x
  if d ≤ e + 1 then ⟨decMantissa x d * 10 ^ (e + 1 - d), 1⟩
  else ⟨decMantissa x d, 10 ^ (d - 1 - e)⟩

/-- Searches upward from `d` digits for the fewest significant digits whose
correctly-rounded decimal parses back to the binary64 value `x`. -/
def shortestDigitsAux (x : Frac) : Nat → Nat → Nat
  | 0, d => d
  | fuel + 1, d =>
      if (fpOfDec (decRoundVal x d)).eqb x then d
      else shortestDigitsAux x fuel (d + 1)

/-- The fewest significant decimal digits that round-trip through binary64
back to `x` (17 digits always suffice). -/
def shortestDigits (x : Frac) : Nat :=
  shortestDigitsAux x 17 1

/-- Modelled from the spec: Python's `str`/`repr` of a float — the shortest
correctly-rounded decimal string that parses back to the same binary64
value, written in fixed-point notation (the regime Python uses for values
in `[1, 10^16)`). -/
def pyFloatRepr (x : Frac) : String :=
  let d := shortestDigits x
  let e := decExp x
  let n := (decMantissa x d).toNat
  if d ≤ e + 1 then Nat.repr (n * 10 ^ (e + 1 - d)) ++ ".0"
  else
    let s := Nat.repr n
    let fracLen := d - (e + 1)
    s.take (s.length - fracLen) ++ "." ++ s.drop (s.length - fracLen)

/-- The binary64 value of the literal `5.5` (exactly representable). -/
def fpLit55 : Frac :=
  fpOfDec ⟨11, 2⟩

/-- The binary64 value of the literal `3.2` (rounded up by one ulp of
`2 ^ (-51)`). -/
def fpLit32 : Frac :=
  fpOfDec ⟨16, 5⟩

/-! ## Argument values, pydantic models and handler bodies

The three pydantic models and all handler bodies are translated directly
from `tests/test_self_registered_actions.py`. -/

/-- Untyped argument values as supplied by the external planner: strings,
(arbitrary-precision) Python ints, floats, and nested objects given as
field-name/value mappings. -/
inductive PyVal where
  | vstr : String → PyVal
  | vint : Int → PyVal
  | vfloat : Frac → PyVal
  | vobj : List (String × PyVal) → PyVal

/-- Looks a field name up in an argument mapping (first match wins). -/
def lookupArg (args : List (String × PyVal)) (k : String) : Option PyVal :=
  match args with
  | [] => none
  | (k', v) :: rest => if k' = k then some v else lookupArg rest k

/-- The pydantic model `SimpleModel(name: str, age: int)` from the test
file. -/
structure SimpleModel where
  name : String
  age : Int
deriving DecidableEq, Repr

/-- The pydantic model `Address(street: str, city: str)` from the test
file. -/
structure Address where
  street : String
  city : String
deriving DecidableEq, Repr

/-- The pydantic model `NestedModel(user: SimpleModel, address: Address)`
from the test file. -/
structure NestedModel where
  user : SimpleModel
  address : Address
deriving DecidableEq, Repr

/-- Modelled from the spec: coercion/validation of an incoming argument
mapping into `SimpleModel` (the Controller's schema validation is in
`browser_use/controller/service.py`, which is not among the provided
sources).  Each declared field must be present with the declared scalar
type. -/
def validateSimpleModel (args : List (String × PyVal)) : Option SimpleModel :=
  match lookupArg args "name", lookupArg args "age" with
  | some (PyVal.vstr n), some (PyVal.vint a) => some ⟨n, a⟩
  | _, _ => none

/-- Modelled from the spec: coercion/validation of an incoming argument
mapping into `Address`. -/
def validateAddress (args : List (String × PyVal)) : Option Address :=
  match lookupArg args "street", lookupArg args "city" with
  | some (PyVal.vstr s), some (PyVal.vstr c) => some ⟨s, c⟩
  | _, _ => none

/-- Modelled from the spec: coercion/validation of an incoming argument
mapping into `NestedModel`.  Validation recurses: the `user` and `address`
sub-objects are validated against their own schemas by
`validateSimpleModel` and `validateAddress`. -/
def validateNestedModel (args : List (String × PyVal)) : Option NestedModel :=
  match lookupArg args "user", lookupArg args "address" with
  | some (PyVal.vobj u), some (PyVal.vobj a) =>
      match validateSimpleModel u, validateAddress a with
      | some user, some addr => some ⟨user, addr⟩
      | _, _ => none
  | _, _ => none

/-- Handler `print_message(message: str)`: prints and returns
`f'Printed message: {message}'` (the print side effect is outside the
returned value). -/
def print_message (message : String) : String :=
  "Printed message: " ++ message

/-- Handler `add_numbers(a: int, b: int)`: `result = a + b`, returns
`f'The sum is {result}'`. -/
def add_numbers (a b : Int) : String :=
  let result := a + b
  "The sum is " ++ toString result

/-- Handler `concatenate_strings(str1: str, str2: str)`: `result = str1 +
str2`, returns `f'Concatenated string: {result}'`. -/
def concatenate_strings (str1 str2 : String) : String :=
  let result := str1 ++ str2
  "Concatenated string: " ++ result

/-- Handler `process_simple_model(model: SimpleModel)`: returns
`f'Processed {model.name}, age {model.age}'`. -/
def process_simple_model (model : SimpleModel) : String :=
  "Processed " ++ model.name ++ ", age " ++ toString model.age

/-- Handler `process_nested_model(model: NestedModel)`: builds `user_info`
and `address_info` and returns
`f'Processed user {user_info} at address {address_info}'`. -/
def process_nested_model (model : NestedModel) : String :=
  let user_info := model.user.name ++ ", age " ++ toString model.user.age
  let address_info := model.address.street ++ ", " ++ model.address.city
  "Processed user " ++ user_info ++ " at address " ++ address_info

/-- Handler `process_multiple_models(model1: SimpleModel, model2: Address)`:
returns `f'Processed {model1.name} living at {model2.street},
{model2.city}'`. -/
def process_multiple_models (model1 : SimpleModel) (model2 : Address) : String :=
  "Processed " ++ model1.name ++ " living at " ++ model2.street ++ ", " ++
    model2.city

/-! ## Dispatch -/

/-- The observable outcome of one successful dispatch: the handler's return
value surfaced as `extracted_content`. -/
structure InvocationResult where
  extracted_content : String
  is_error : Bool
deriving DecidableEq, Repr

/-- Dispatch-time failures from the spec's error taxonomy. -/
inductive DispatchError where
  | unknownAction : DispatchError
  | argumentValidation : DispatchError
deriving DecidableEq, Repr

/-- Result of a dispatch call: a wrapped handler result or a dispatch
error. -/
inductive DispatchOutcome where
  | ok : InvocationResult → DispatchOutcome
  | error : DispatchError → DispatchOutcome
deriving DecidableEq, Repr

/-- Whether a registered handler is a plain function or an async coroutine
(`calculate_area` is the only async handler in the test file). -/
inductive HandlerKind where
  | sync : HandlerKind
  | async : HandlerKind
deriving DecidableEq, Repr

/-- Modelled from the spec: the dispatcher surfaces a handler's return
value as `InvocationResult.extracted_content` uniformly — awaiting an async
handler and calling a sync one are indistinguishable to the caller. -/
def surfaceResult (_kind : HandlerKind) (ret : String) : InvocationResult :=
  ⟨ret, false⟩

/-- Modelled from the spec: the Controller's `dispatch(name, raw_arguments)`
over the fixture's registry (`browser_use/controller/service.py` is not
among the provided sources).  Unknown names fail with `UnknownActionError`;
arguments that do not validate against the action's expected shape fail with
`ArgumentValidationError`; otherwise the handler is invoked and its return
value surfaced as `extracted_content`. -/
def dispatchFixture (name : String) (args : List (String × PyVal)) :
    DispatchOutcome :=
  if name = "print_message" then
    match lookupArg args "message" with
    | some (PyVal.vstr m) => DispatchOutcome.ok (surfaceResult HandlerKind.sync (print_message m))
    | _ => DispatchOutcome.error DispatchError.argumentValidation
  else if name = "add_numbers" then
    match lookupArg args "a", lookupArg args "b" with
    | some (PyVal.vint a), some (PyVal.vint b) =>
        DispatchOutcome.ok (surfaceResult HandlerKind.sync (add_numbers a b))
    | _, _ => DispatchOutcome.error DispatchError.argumentValidation
  else if name = "concatenate_strings" then
    match lookupArg args "str1", lookupArg args "str2" with
    | some (PyVal.vstr s1), some (PyVal.vstr s2) =>
        DispatchOutcome.ok (surfaceResult HandlerKind.sync (concatenate_strings s1 s2))
    | _, _ => DispatchOutcome.error DispatchError.argumentValidation
  else if name = "process_simple_model" then
    match validateSimpleModel args with
    | some m => DispatchOutcome.ok (surfaceResult HandlerKind.sync (process_simple_model m))
    | none => DispatchOutcome.error DispatchError.argumentValidation
  else if name = "process_nested_model" then
    match validateNestedModel args with
    | some m => DispatchOutcome.ok (surfaceResult HandlerKind.sync (process_nested_model m))
    | none => DispatchOutcome.error DispatchError.argumentValidation
  else if name = "process_multiple_models" then
    match lookupArg args "model1", lookupArg args "model2" with
    | some (PyVal.vobj m1), some (PyVal.vobj m2) =>
        match validateSimpleModel m1, validateAddress m2 with
        | some model1, some model2 =>
            DispatchOutcome.ok
              (surfaceResult HandlerKind.sync (process_multiple_models model1 model2))
        | _, _ => DispatchOutcome.error DispatchError.argumentValidation
    | _, _ => DispatchOutcome.error DispatchError.argumentValidation
  else DispatchOutcome.error DispatchError.unknownAction

/-- The argument mapping `{name: "Alice", age: 30}` of the
`process_simple_model` scenario. -/
def aliceArgs : List (String × PyVal) :=
  [("name", PyVal.vstr "Alice"), ("age", PyVal.vint 30)]

/-- The argument mapping `{a: 10, b: 20}` of the `add_numbers` scenario. -/
def sumArgs : List (String × PyVal) :=
  [("a", PyVal.vint 10), ("b", PyVal.vint 20)]

/-- The nested argument mapping `{user: {name: "Bob", age: 25}, address:
{street: "123 Maple St", city: "Springfield"}}` of the
`process_nested_model` scenario. -/
def bobArgs : List (String × PyVal) :=
  [("user", PyVal.vobj [("name", PyVal.vstr "Bob"), ("age", PyVal.vint 25)]),
   ("address", PyVal.vobj
     [("street", PyVal.vstr "123 Maple St"),
      ("city", PyVal.vstr "Springfield")])]

/-- Async handler `calculate_area(length: float, width: float)` from
`test_mixed_arguments_actions`: `area = length * width`, returns
`f'The area is {area}'` — binary64 multiplication followed by Python float
formatting of the product. -/
def calculate_area (length width : Frac) : String :=
  let area := fpMul length width
  "The area is " ++ pyFloatRepr area

/-- Modelled from the spec: dispatch over the registry as it stands inside
`test_mixed_arguments_actions`, where the async `calculate_area` has been
registered on top of the fixture's actions.  Its coroutine result is
awaited and surfaced exactly as a sync handler's return value would be. -/
def dispatchMixed (name : String) (args : List (String × PyVal)) :
    DispatchOutcome :=
  if name = "calculate_area" then
    match lookupArg args "length", lookupArg args "width" with
    | some (PyVal.vfloat l), some (PyVal.vfloat w) =>
        DispatchOutcome.ok (surfaceResult HandlerKind.async (calculate_area l w))
    | _, _ => DispatchOutcome.error DispatchError.argumentValidation
  else dispatchFixture name args

/-- The argument mapping `{length: 5.5, width: 3.2}` of the
`calculate_area` scenario. -/
def areaArgs : List (String × PyVal) :=
  [("length", PyVal.vfloat fpLit55), ("width", PyVal.vfloat fpLit32)]

/-! ## The `main` coroutine of `examples/who_starred_my_repo.py`

`main` wraps its body in `try/except/finally`: the `except` clause prints
the error and re-raises it, and the `finally` clause closes the browser
whenever the local variable `browser` was bound.  We model one run of
`main` as the list of events it performs, parametrised by which of the
eight statements of the `try` block (if any) raises an exception. -/

/-- The statements of `main`, in order: the eight statements of the `try`
block, the `except` clause's `print`, and the `finally` clause's
`browser.close(force=True)`. -/
inductive MainEv where
  | initLLM : MainEv
  | initController : MainEv
  | acquireBrowser : MainEv
  | connectBrowser : MainEv
  | setBrowser : MainEv
  | initAgent : MainEv
  | runAgent : MainEv
  | printResult : MainEv
  | printError : MainEv
  | closeBrowser : MainEv
deriving DecidableEq, Repr

/-- How a run of `main` ends: a normal return, or propagation of the
exception raised by statement `k` (the exception object is re-raised
unchanged, so its identity `k` is preserved). -/
inductive MainOutcome where
  | normal : MainOutcome
  | raised : Fin 8 → MainOutcome
deriving DecidableEq, Repr

/-- The `try` block of `main`, one event per statement: build the LLM,
build the controller, `browser = DolphinBrowser(...)`, `await
browser.connect(...)`, `controller.set_browser(browser)`, build the agent,
`result = await agent.run()`, `print("Final Result:", ...)`. -/
def mainTrySteps : List MainEv :=
  [MainEv.initLLM, MainEv.initController, MainEv.acquireBrowser,
   MainEv.connectBrowser, MainEv.setBrowser, MainEv.initAgent,
   MainEv.runAgent, MainEv.printResult]

/-- One run of `main`: `none` is the exception-free run; `some k` is the run
in which statement `k` of the `try` block raises.  On an exception the
completed prefix is followed by the `except` clause's error print, then the
`finally` clause closes the browser when `browser` was bound (statement 2
completed, i.e. `2 < k`), and the exception propagates.  On a normal return
the `finally` clause still closes the bound browser. -/
def mainRun : Option (Fin 8) → List MainEv × MainOutcome
  | none => (mainTrySteps ++ [MainEv.closeBrowser], MainOutcome.normal)
  | some k =>
      (mainTrySteps.take k.val ++ [MainEv.printError] ++
        (if 2 < k.val then [MainEv.closeBrowser] else []),
       MainOutcome.raised k)

/-- Whether the run acquired a browser: the binding `browser =
DolphinBrowser(keep_open=True)` (statement 2) completed before the run
left the `try` block. -/
def browserAcquired : Option (Fin 8) → Bool
  | none => true
  | some k => decide (2 < k.val)

/-! ## Theorems -/

/-- Claim C1, as stated, is false of the source: it is not the case that
every schema-less action accepts only scalar arguments —
`process_multiple_models` is registered without `param_model` yet both of
its parameters are pydantic models (`SimpleModel` and `Address`). -/
theorem schema_invariant_counterexample :
    ¬ (∀ a ∈ setupRegistry, schemaParamInvariant a = true) := by
  decide

/-- Claim C1 (amended): every action registered with a `param_model` schema
has exactly one parameter, named `model`, of that schema type; every
schema-less action has only scalar parameters, except
`process_multiple_models`, which takes two pydantic-model parameters. -/
theorem schema_invariant_amended :
    ∀ a ∈ setupRegistry, schemaParamInvariantAmended a = true := by
  decide

/-- Claim C1 witness: the amended invariant at the concrete descriptor of
`process_simple_model`, which is in the fixture's registry. -/
theorem schema_invariant_amended_witness :
    schemaParamInvariantAmended processSimpleModelDesc = true :=
  schema_invariant_amended processSimpleModelDesc (by decide)

/-- Claim C2, as stated, is false of the source: not every registration
happens at setup time — `calculate_area` is registered inside
`test_mixed_arguments_actions`, after the `controller` fixture completed. -/
theorem registry_immutable_counterexample :
    ¬ (∀ e ∈ registrationEvents, e.phase = Phase.setup) := by
  decide

/-- Claim C2 (amended): the registry is extended after setup —
`calculate_area` is registered during `test_mixed_arguments_actions` — but
every dispatch in that test's timeline happens after the registration of
the dispatched action. -/
theorem registration_precedes_dispatch :
    (⟨"calculate_area", Phase.test⟩ : RegEvent) ∈ registrationEvents ∧
      regBeforeDispatch mixedTestTimeline = true := by
  decide

/-- Claim C3: dispatching `process_nested_model` with the nested mapping
`{user: {name: "Bob", age: 25}, address: {street: "123 Maple St", city:
"Springfield"}}` validates the `user` and `address` sub-objects recursively
against their own schemas, succeeds, and returns exactly `"Processed user
Bob, age 25 at address 123 Maple St, Springfield"` as
`extracted_content`. -/
theorem process_nested_model_dispatch :
    dispatchFixture "process_nested_model" bobArgs =
      DispatchOutcome.ok
        ⟨"Processed user Bob, age 25 at address 123 Maple St, Springfield",
          false⟩ ∧
    validateNestedModel bobArgs =
      some ⟨⟨"Bob", 25⟩, ⟨"123 Maple St", "Springfield"⟩⟩ := by
  decide

/-- Claim C4: dispatching `process_simple_model` with `{name: "Alice", age:
30}` succeeds and returns exactly `"Processed Alice, age 30"` as
`extracted_content`. -/
theorem process_simple_model_dispatch :
    dispatchFixture "process_simple_model" aliceArgs =
      DispatchOutcome.ok ⟨"Processed Alice, age 30", false⟩ := by
  decide

/-- Claim C5: dispatching the schema-less `add_numbers` with `{a: 10, b:
20}` succeeds and returns exactly `"The sum is 30"`. -/
theorem add_numbers_dispatch :
    dispatchFixture "add_numbers" sumArgs =
      DispatchOutcome.ok ⟨"The sum is 30", false⟩ := by
  decide

/-- Claim C6: dispatching the async `calculate_area` with `length = 5.5`
and `width = 3.2` (as binary64 values) returns exactly `"The area is
17.6"`, and the async result is surfaced identically to a sync handler's
return value. -/
theorem calculate_area_dispatch :
    dispatchMixed "calculate_area" areaArgs =
      DispatchOutcome.ok ⟨"The area is 17.6", false⟩ ∧
    (∀ k, surfaceResult k (calculate_area fpLit55 fpLit32) =
      surfaceResult HandlerKind.sync (calculate_area fpLit55 fpLit32)) :=
  ⟨by decide, fun _ => rfl⟩

/-- Claim C7: on every run of `main` that acquired the browser — the
exception-free run, and every run in which a statement after the
acquisition raises — the last event before control leaves `main` is
`browser.close(force=True)`. -/
theorem browser_closed_on_exit :
    ∀ fail : Option (Fin 8), browserAcquired fail = true →
      (mainRun fail).1.getLast? = some MainEv.closeBrowser := by
  decide

/-- Claim C7 witness: the run in which statement 5 (building the agent)
raises has acquired the browser, and its last event is the close. -/
theorem browser_closed_on_exit_witness :
    (mainRun (some 5)).1.getLast? = some MainEv.closeBrowser :=
  browser_closed_on_exit (some 5) (by decide)

/-- Claim C8: `add_numbers` is commutative in its two arguments — its
result depends only on the sum `a + b`. -/
theorem add_numbers_comm :
    ∀ a b : Int, add_numbers a b = add_numbers b a := by
  intro a b
  unfold add_numbers
  rw [Int.add_comm]

/-- Claim C9: `concatenate_strings` returns exactly `"Concatenated string: "`
followed by `str1` followed by `str2`, and with both inputs empty it
returns `"Concatenated string: "`. -/
theorem concatenate_strings_spec :
    (∀ str1 str2 : String,
      concatenate_strings str1 str2 = "Concatenated string: " ++ str1 ++ str2) ∧
    concatenate_strings "" "" = "Concatenated string: " :=
  ⟨fun s1 s2 => by unfold concatenate_strings; rw [String.append_assoc],
   by decide⟩

/-- Claim C10: `main` never swallows an exception — the run raising at
statement `k` ends with the same exception `k` propagated to the caller,
after the error message is printed and, when the browser was bound, after
the browser is closed; and `main` returns normally exactly when no
exception occurred. -/
theorem main_propagates :
    ∀ fail : Option (Fin 8),
      ((mainRun fail).2 = MainOutcome.normal ↔ fail = none) ∧
      (∀ k, fail = some k →
        (mainRun fail).2 = MainOutcome.raised k ∧
        MainEv.printError ∈ (mainRun fail).1 ∧
        (2 < k.val →
          (mainRun fail).1.getLast? = some MainEv.closeBrowser)) := by
  decide

/-- Claim C10 witness: the run raising at statement 3 (`browser.connect`)
re-raises exactly that exception, after printing the error and closing the
already-bound browser. -/
theorem main_propagates_witness :
    (mainRun (some 3)).2 = MainOutcome.raised 3 ∧
    MainEv.printError ∈ (mainRun (some 3)).1 ∧
    (mainRun (some 3)).1.getLast? = some MainEv.closeBrowser :=
  ⟨((main_propagates (some 3)).2 3 rfl).1,
   ((main_propagates (some 3)).2 3 rfl).2.1,
   ((main_propagates (some 3)).2 3 rfl).2.2 (by decide)⟩

end BrowserUseSpec
